import Mathlib

/-
Shallow embedding of `src/Playwright/__init__.py` (robotframework-browser
bridge): a Robot Framework keyword library that supervises an external
Playwright engine process and brokers each keyword call as a gRPC request.

Modelling conventions:
* OS-level and network-level nondeterminism (free-port allocation, process
  pids, health-probe outcomes, process liveness at poll time, RPC outcomes)
  is supplied by an `Env` record.
* Each operation is a pure function from the bridge state (the memoised
  `cached_property` value and `self.port`) and an `Env` to the new state,
  an event trace (process spawns, channel opens/closes, RPC calls, log
  lines, kill signals) and a result. Python exceptions are modelled as
  `KwResult` error constructors.
* `@contextlib.contextmanager` without try/finally has the semantics that
  an exception raised by the with-body is thrown into the generator at the
  yield point; code after `yield` (here `channel.close()`) does not run on
  that path. The `with grpc.insecure_channel(...)` inside the health loop,
  in contrast, is a real context manager that closes on every exit path.
* `functools.cached_property` memoises only on successful return of the
  initialiser; an initialiser that raises leaves nothing memoised.
* `Popen.kill` delivers SIGKILL only when the process has not already
  terminated (send_signal polls first); it is modelled by emitting a
  `sigkill` event only when the process is alive at that moment.
-/

namespace Playwright

/-- Python `str.lower` applied characterwise (ASCII case mapping). -/
def pyLower (s : String) : String :=
  String.mk (s.toList.map Char.toLower)

/-- Whitespace characters recognised by Python `str.strip()` (ASCII subset). -/
def pyIsSpace (c : Char) : Bool :=
  c = ' ' || c = '\t' || c = '\n' || c = '\r' || c = '\x0b' || c = '\x0c'

/-- Python `str.strip()`: drop leading and trailing whitespace. -/
def pyStrip (s : String) : String :=
  String.mk (((s.toList.dropWhile pyIsSpace).reverse.dropWhile pyIsSpace).reverse)

/-- Python truthiness coercion `url or ""` applied to the optional `url`
argument of `open_browser` (both `None` and the empty string are falsy). -/
def pyOrEmpty : Option String → String
  | none => ""
  | some u => if u = "" then "" else u

/-- `_SUPPORTED_BROWSERS = ["chrome", "firefox", "webkit"]` (module constant). -/
def _SUPPORTED_BROWSERS : List String := ["chrome", "firefox", "webkit"]

/-- Request messages of the RPC surface (`playwright_pb2`):
`Empty`, `openBrowserRequest {url, browser}`, `goToRequest {url}`,
`inputTextRequest {input, selector}`, `selectorRequest {selector}`. -/
inductive Request where
  | empty : Request
  | openBrowser (url : String) (browser : String) : Request
  | goTo (url : String) : Request
  | inputText (input : String) (selector : String) : Request
  | selector (s : String) : Request
deriving DecidableEq, Repr

/-- Observable events of one bridge operation, in order of occurrence. -/
inductive Ev where
  | spawn (pid : Nat) (port : Nat) : Ev
  | chanOpen (port : Nat) : Ev
  | chanClose (port : Nat) : Ev
  | rpcCall (method : String) (req : Request) : Ev
  | logInfo (msg : String) : Ev
  | logDebug (msg : String) : Ev
  | sleep : Ev
  | killCall (pid : Nat) : Ev
  | sigkill (pid : Nat) : Ev
deriving DecidableEq, Repr

/-- Outcome of one keyword call: normal return, or the Python exception
that propagated to the caller. -/
inductive KwResult where
  | ok : KwResult
  | valueError (msg : String) : KwResult
  | startupTimeout (msg : String) : KwResult
  | connectionError (msg : String) : KwResult
  | rpcError (msg : String) : KwResult
  | assertionError (msg : String) : KwResult
deriving DecidableEq, Repr

/-- Outcome of the in-flight RPC of a keyword call, supplied by the engine:
a response `{log, body}` or a transport failure (`grpc.RpcError`). -/
inductive RpcOutcome where
  | ok (log : String) (body : String) : RpcOutcome
  | err (msg : String) : RpcOutcome
deriving DecidableEq, Repr

/-- The `Popen` handle of the spawned engine process. -/
structure Popen where
  pid : Nat
  port : Nat
deriving DecidableEq, Repr

/-- Bridge instance state: `memo` is the value cached by the
`cached_property _playwright_process` (none while unset), `port` is
`self.port`, and `procAlive` records whether the memoised process has
been killed by the bridge itself (`_close`). -/
structure Bridge where
  memo : Option Popen
  port : Option Nat
  procAlive : Bool
deriving DecidableEq, Repr

/-- External nondeterminism for one bridge operation: the pid and port the
OS would hand out if a spawn happens, the health-probe outcomes of the
startup loop, the printed representation of the health response, whether
the process is alive at `poll()` time, and the engine's answer to the
keyword's RPC. -/
structure Env where
  newPid : Nat
  newPort : Nat
  probe : Nat → Bool
  healthRepr : String
  alive : Bool
  rpc : RpcOutcome

/-- How the with-body of `insecure_stub` finished: normal return, or an
exception (which the leaky contextmanager then propagates). -/
inductive BodyOut where
  | ret : BodyOut
  | raised (r : KwResult) : BodyOut
deriving DecidableEq, Repr

/-- Number of trace events satisfying `p`. -/
def countEv (p : Ev → Bool) (tr : List Ev) : Nat :=
  (tr.filter p).length

def isChanOpen : Ev → Bool
  | Ev.chanOpen _ => true
  | _ => false

def isChanClose : Ev → Bool
  | Ev.chanClose _ => true
  | _ => false

def isSpawn : Ev → Bool
  | Ev.spawn _ _ => true
  | _ => false

def isSigkill : Ev → Bool
  | Ev.sigkill _ => true
  | _ => false

def isRpcCall : Ev → Bool
  | Ev.rpcCall _ _ => true
  | _ => false

def isHealthCall : Ev → Bool
  | Ev.rpcCall m _ => m == "Health"
  | _ => false

/-- One iteration of the startup health-check loop: `with
grpc.insecure_channel(...)` opens a channel, `stub.Health(Empty())` is
attempted; on success the connection is logged and the loop returns, on
`grpc.RpcError` the code sleeps 0.1 s; the channel context manager closes
the channel on both paths. -/
def healthAttempt (port : Nat) (rep : String) (ok : Bool) : List Ev :=
  if ok then
    [Ev.chanOpen port, Ev.rpcCall "Health" Request.empty,
     Ev.logInfo ("Connected to the playwright process at port $" ++ toString port ++ ": $" ++ rep),
     Ev.chanClose port]
  else
    [Ev.chanOpen port, Ev.rpcCall "Health" Request.empty, Ev.sleep, Ev.chanClose port]

/-- The `for i in range(50)` probe loop, with `fuel` iterations remaining
and `i` the current index: returns the concatenated trace and the index of
the first successful probe, if any. -/
def healthAttempts (port : Nat) (probe : Nat → Bool) (rep : String) :
    Nat → Nat → List Ev × Option Nat
  | _, 0 => ([], none)
  | i, fuel + 1 =>
    if probe i then (healthAttempt port rep true, some i)
    else
      let r := healthAttempts port probe rep (i + 1) fuel
      (healthAttempt port rep false ++ r.1, r.2)

/-- Access to the `cached_property _playwright_process`. If a value is
memoised it is returned with no side effects. Otherwise the initialiser
runs: log the start, set `self.port` to a fresh free port, spawn the node
process, then probe its health up to 50 times; the first success memoises
and returns the `Popen`; exhaustion raises `RuntimeError` (modelled as the
`none` component) leaving nothing memoised but `self.port` assigned. -/
def _playwright_process (b : Bridge) (e : Env) : Bridge × Option Popen × List Ev :=
  match b.memo with
  | some p => (b, some p, [])
  | none =>
    let r := healthAttempts e.newPort e.probe e.healthRepr 0 50
    let tr := [Ev.logInfo "Starting Playwright process", Ev.spawn e.newPid e.newPort] ++ r.1
    if r.2.isSome then
      (⟨some ⟨e.newPid, e.newPort⟩, some e.newPort, true⟩, some ⟨e.newPid, e.newPort⟩, tr)
    else
      (⟨none, some e.newPort, b.procAlive⟩, none, tr)

/-- The startup-timeout message
`f"Could not connect to the playwright process at port ${self.port}"`
(the `$` is literal: the f-string interpolates `{self.port}`). -/
def startupMsg (port : Nat) : String :=
  "Could not connect to the playwright process at port $" ++ toString port

/-- A keyword call `with self.insecure_stub() as stub: <body>`.
`insecure_stub` first touches `self._playwright_process` (triggering the
lazy start; a startup failure propagates), then polls the process — a dead
process raises `ConnectionError` before any channel is opened — then opens
a channel to `self.port` and yields the stub. Because the contextmanager
has no try/finally, `channel.close()` after the yield runs only when the
body returns normally; a body exception propagates with the channel left
open. -/
def insecure_stub_run (b : Bridge) (e : Env) (body : List Ev × BodyOut) :
    Bridge × List Ev × KwResult :=
  let s := _playwright_process b e
  match s.2.1 with
  | none => (s.1, s.2.2, KwResult.startupTimeout (startupMsg (s.1.port.getD 0)))
  | some _ =>
    if s.1.procAlive && e.alive then
      let port := s.1.port.getD 0
      match body.2 with
      | BodyOut.ret =>
        (s.1, s.2.2 ++ (Ev.chanOpen port :: body.1) ++ [Ev.chanClose port], KwResult.ok)
      | BodyOut.raised r => (s.1, s.2.2 ++ (Ev.chanOpen port :: body.1), r)
    else
      (s.1, s.2.2, KwResult.connectionError "Playwright process has been terminated")

/-- A with-body that issues one RPC and logs `response.log` on success;
an `RpcError` propagates out of the body. -/
def simpleBody (method : String) (req : Request) (rpc : RpcOutcome) : List Ev × BodyOut :=
  match rpc with
  | RpcOutcome.ok log _ => ([Ev.rpcCall method req, Ev.logInfo log], BodyOut.ret)
  | RpcOutcome.err m => ([Ev.rpcCall method req], BodyOut.raised (KwResult.rpcError m))

/-- The `ValueError` message of `open_browser` for an unsupported name. -/
def open_browser_error_msg (browser : String) : String :=
  browser ++ " is not supported, it should be one of: " ++
    String.intercalate ", " _SUPPORTED_BROWSERS

/-- `open_browser(browser="Chrome", url=None)`: lower-case and strip the
browser name; an unsupported result raises `ValueError` before
`insecure_stub` is entered (so before the lazy process start); otherwise
send `openBrowserRequest(url=url or "", browser=browser_)`. -/
def open_browser (b : Bridge) (e : Env) (browser : String) (url : Option String) :
    Bridge × List Ev × KwResult :=
  let browser_ := pyStrip (pyLower browser)
  if browser_ ∈ _SUPPORTED_BROWSERS then
    insecure_stub_run b e
      (simpleBody "OpenBrowser" (Request.openBrowser (pyOrEmpty url) browser_) e.rpc)
  else
    (b, [], KwResult.valueError (open_browser_error_msg browser))

/-- `close_browser()`: `stub.CloseBrowser(Empty())`, log the response. -/
def close_browser (b : Bridge) (e : Env) : Bridge × List Ev × KwResult :=
  insecure_stub_run b e (simpleBody "CloseBrowser" Request.empty e.rpc)

/-- `go_to(url)`: `stub.GoTo(goToRequest(url=url))`, log the response. -/
def go_to (b : Bridge) (e : Env) (url : String) : Bridge × List Ev × KwResult :=
  insecure_stub_run b e (simpleBody "GoTo" (Request.goTo url) e.rpc)

/-- `input_text(selector, text)`: `stub.InputText(inputTextRequest(input=text,
selector=selector))`, log the response. -/
def input_text (b : Bridge) (e : Env) (selector text : String) :
    Bridge × List Ev × KwResult :=
  insecure_stub_run b e (simpleBody "InputText" (Request.inputText text selector) e.rpc)

/-- `click_button(selector)`: `stub.ClickButton(selectorRequest(selector=selector))`,
log the response. -/
def click_button (b : Bridge) (e : Env) (selector : String) :
    Bridge × List Ev × KwResult :=
  insecure_stub_run b e (simpleBody "ClickButton" (Request.selector selector) e.rpc)

/-- The with-body of `location_should_be`: `page_url = stub.GetUrl(Empty()).body`,
then `if url != page_url: raise AssertionError(...)` (no log line). -/
def location_should_be_body (url : String) (rpc : RpcOutcome) : List Ev × BodyOut :=
  match rpc with
  | RpcOutcome.err m => ([Ev.rpcCall "GetUrl" Request.empty], BodyOut.raised (KwResult.rpcError m))
  | RpcOutcome.ok _ body =>
    if url = body then ([Ev.rpcCall "GetUrl" Request.empty], BodyOut.ret)
    else
      ([Ev.rpcCall "GetUrl" Request.empty],
       BodyOut.raised (KwResult.assertionError
         ("URL should be `" ++ url ++ "`  but was `" ++ body ++ "`")))

/-- `location_should_be(url)`. -/
def location_should_be (b : Bridge) (e : Env) (url : String) :
    Bridge × List Ev × KwResult :=
  insecure_stub_run b e (location_should_be_body url e.rpc)

/-- The with-body of `textfield_value_should_be`: `GetInputValue`, log the
response, compare `response.body` with the expected text. -/
def textfield_value_should_be_body (selector text : String) (rpc : RpcOutcome) :
    List Ev × BodyOut :=
  match rpc with
  | RpcOutcome.err m =>
    ([Ev.rpcCall "GetInputValue" (Request.selector selector)],
     BodyOut.raised (KwResult.rpcError m))
  | RpcOutcome.ok log body =>
    if body = text then
      ([Ev.rpcCall "GetInputValue" (Request.selector selector), Ev.logInfo log], BodyOut.ret)
    else
      ([Ev.rpcCall "GetInputValue" (Request.selector selector), Ev.logInfo log],
       BodyOut.raised (KwResult.assertionError
         ("Textfield " ++ selector ++ " content should be " ++ text ++
          " but was `" ++ body ++ "`")))

/-- `textfield_value_should_be(selector, text)`. -/
def textfield_value_should_be (b : Bridge) (e : Env) (selector text : String) :
    Bridge × List Ev × KwResult :=
  insecure_stub_run b e (textfield_value_should_be_body selector text e.rpc)

/-- The with-body of `title_should_be`: `GetTitle`, log the response,
compare `response.body` with the expected title. -/
def title_should_be_body (title : String) (rpc : RpcOutcome) : List Ev × BodyOut :=
  match rpc with
  | RpcOutcome.err m =>
    ([Ev.rpcCall "GetTitle" Request.empty], BodyOut.raised (KwResult.rpcError m))
  | RpcOutcome.ok log body =>
    if body = title then
      ([Ev.rpcCall "GetTitle" Request.empty, Ev.logInfo log], BodyOut.ret)
    else
      ([Ev.rpcCall "GetTitle" Request.empty, Ev.logInfo log],
       BodyOut.raised (KwResult.assertionError
         ("Title should be " ++ title ++ " but was `" ++ body ++ "`")))

/-- `title_should_be(title)`. -/
def title_should_be (b : Bridge) (e : Env) (title : String) :
    Bridge × List Ev × KwResult :=
  insecure_stub_run b e (title_should_be_body title e.rpc)

/-- The with-body of `page_should_contain`: `GetTextContent` with selector
`"text=" + text`, log the response, compare `response.body` with `text`. -/
def page_should_contain_body (text : String) (rpc : RpcOutcome) : List Ev × BodyOut :=
  match rpc with
  | RpcOutcome.err m =>
    ([Ev.rpcCall "GetTextContent" (Request.selector ("text=" ++ text))],
     BodyOut.raised (KwResult.rpcError m))
  | RpcOutcome.ok log body =>
    if body = text then
      ([Ev.rpcCall "GetTextContent" (Request.selector ("text=" ++ text)), Ev.logInfo log],
       BodyOut.ret)
    else
      ([Ev.rpcCall "GetTextContent" (Request.selector ("text=" ++ text)), Ev.logInfo log],
       BodyOut.raised (KwResult.assertionError
         ("No element with text `" ++ text ++ "` on page")))

/-- `page_should_contain(text)`. -/
def page_should_contain (b : Bridge) (e : Env) (text : String) :
    Bridge × List Ev × KwResult :=
  insecure_stub_run b e (page_should_contain_body text e.rpc)

/-- `_close()`: log, then `self._playwright_process.kill()` — note this is
a `cached_property` access, so with nothing memoised it runs the full
initialiser (spawn and health loop) before killing; `Popen.kill` sends
SIGKILL only if the process has not already terminated — then log again. -/
def _close (b : Bridge) (e : Env) : Bridge × List Ev × KwResult :=
  let pre : List Ev := [Ev.logDebug "Closing Playwright process"]
  let s := _playwright_process b e
  match s.2.1 with
  | none => (s.1, pre ++ s.2.2, KwResult.startupTimeout (startupMsg (s.1.port.getD 0)))
  | some p =>
    let killTr : List Ev :=
      if s.1.procAlive && e.alive then [Ev.killCall p.pid, Ev.sigkill p.pid]
      else [Ev.killCall p.pid]
    (⟨s.1.memo, s.1.port, false⟩,
     pre ++ s.2.2 ++ killTr ++ [Ev.logDebug "Playwright process killed"],
     KwResult.ok)

/-! ### Helper lemmas -/

theorem countEv_append (p : Ev → Bool) (a b : List Ev) :
    countEv p (a ++ b) = countEv p a + countEv p b := by
  simp [countEv, List.filter_append]

theorem countEv_cons (p : Ev → Bool) (x : Ev) (l : List Ev) :
    countEv p (x :: l) = (if p x then 1 else 0) + countEv p l := by
  by_cases h : p x <;> simp [countEv, List.filter_cons, h, Nat.add_comm]

theorem countEv_healthAttempt (port : Nat) (rep : String) (ok : Bool) :
    countEv isHealthCall (healthAttempt port rep ok) = 1 := by
  cases ok <;> rfl

theorem healthAttempts_count (port : Nat) (probe : Nat → Bool) (rep : String) :
    ∀ fuel i, countEv isHealthCall (healthAttempts port probe rep i fuel).1 ≤ fuel := by
  intro fuel
  induction fuel with
  | zero => intro i; simp [healthAttempts, countEv]
  | succ n ih =>
    intro i
    cases h : probe i with
    | true =>
      simp [healthAttempts, h, countEv_healthAttempt]
    | false =>
      have hrec := ih (i + 1)
      simp [healthAttempts, h, countEv_append, countEv_healthAttempt]
      omega

theorem healthAttempts_none_iff (port : Nat) (probe : Nat → Bool) (rep : String) :
    ∀ fuel i, (healthAttempts port probe rep i fuel).2 = none ↔
      ∀ j, j < fuel → probe (i + j) = false := by
  intro fuel
  induction fuel with
  | zero => intro i; simp [healthAttempts]
  | succ n ih =>
    intro i
    cases h : probe i with
    | true =>
      simp [healthAttempts, h]
      exact ⟨0, by omega, by simpa using h⟩
    | false =>
      rw [show (healthAttempts port probe rep i (n + 1)).2 =
            (healthAttempts port probe rep (i + 1) n).2 by simp [healthAttempts, h]]
      rw [ih (i + 1)]
      constructor
      · intro hall j hj
        cases j with
        | zero => simpa using h
        | succ k =>
          have := hall k (by omega)
          simpa [Nat.add_assoc, Nat.add_comm 1 k] using this
      · intro hall j hj
        have := hall (j + 1) (by omega)
        simpa [Nat.add_assoc, Nat.add_comm 1 j] using this

theorem healthAttempts_some (port : Nat) (probe : Nat → Bool) (rep : String) :
    ∀ fuel i k, (healthAttempts port probe rep i fuel).2 = some k →
      probe k = true ∧ i ≤ k ∧ k < i + fuel := by
  intro fuel
  induction fuel with
  | zero => intro i k h; simp [healthAttempts] at h
  | succ n ih =>
    intro i k h
    cases hp : probe i with
    | true =>
      simp [healthAttempts, hp] at h
      subst h
      exact ⟨hp, Nat.le_refl i, by omega⟩
    | false =>
      simp [healthAttempts, hp] at h
      have hr := ih (i + 1) k h
      exact ⟨hr.1, by omega, by omega⟩

theorem _playwright_process_memo (b : Bridge) (e : Env) (p : Popen)
    (h : b.memo = some p) : _playwright_process b e = (b, some p, []) := by
  simp [_playwright_process, h]

theorem healthAttempt_no_spawn (port : Nat) (rep : String) (ok : Bool) :
    countEv isSpawn (healthAttempt port rep ok) = 0 ∧
    countEv isSigkill (healthAttempt port rep ok) = 0 := by
  cases ok <;> exact ⟨rfl, rfl⟩

theorem healthAttempts_no_spawn (port : Nat) (probe : Nat → Bool) (rep : String) :
    ∀ fuel i, countEv isSpawn (healthAttempts port probe rep i fuel).1 = 0 ∧
      countEv isSigkill (healthAttempts port probe rep i fuel).1 = 0 := by
  intro fuel
  induction fuel with
  | zero => intro i; exact ⟨rfl, rfl⟩
  | succ n ih =>
    intro i
    cases h : probe i with
    | true =>
      simpa [healthAttempts, h] using healthAttempt_no_spawn port rep true
    | false =>
      have hrec := ih (i + 1)
      have hat := healthAttempt_no_spawn port rep false
      constructor <;>
        simp [healthAttempts, h, countEv_append, hrec.1, hrec.2, hat.1, hat.2]

/-! ### Concrete fixtures for witnesses and counterexamples -/

/-- A bridge whose engine process (pid 7, port 4321) is memoised and alive. -/
def startedBridge : Bridge := ⟨some ⟨7, 4321⟩, some 4321, true⟩

/-- A bridge whose memoised engine process (pid 7, port 4321) has been killed. -/
def deadBridge : Bridge := ⟨some ⟨7, 4321⟩, some 4321, false⟩

/-- A freshly constructed bridge: nothing memoised, no port assigned. -/
def freshBridge : Bridge := ⟨none, none, false⟩

/-- Environment: every probe succeeds, process alive, RPC answers
log "logline" and body "https://example.com". -/
def envOk : Env :=
  ⟨9, 5555, fun _ => true, "resp", true, RpcOutcome.ok "logline" "https://example.com"⟩

/-- Environment: process alive but the keyword RPC fails with a transport
error (`grpc.RpcError`). -/
def envRpcErr : Env :=
  ⟨9, 5555, fun _ => true, "resp", true, RpcOutcome.err "UNAVAILABLE"⟩

/-- Environment: only the fourth health probe (index 3) succeeds. -/
def envProbe3 : Env :=
  ⟨9, 5555, fun i => decide (i = 3), "resp", true, RpcOutcome.ok "logline" "body"⟩

/-- Environment: every health probe fails (the engine never comes up). -/
def envProbeFail : Env :=
  ⟨11, 6666, fun _ => false, "resp", true, RpcOutcome.ok "l" "b"⟩

/-- Environment: probes succeed at once, fresh pid 12 and port 7777. -/
def envProbe0 : Env :=
  ⟨12, 7777, fun _ => true, "resp2", true, RpcOutcome.ok "l2" "b2"⟩

/-! ### Claim theorems -/

/-- C3: the startup health-check loop in `_playwright_process` makes at
most 50 probe attempts; a returned ready handle implies some probe among
the first 50 succeeded, and the startup-timeout error (no handle) is
raised exactly when all 50 probes fail, so the loop never iterates
unboundedly. -/
theorem health_loop_bounded (b : Bridge) (e : Env) (h : b.memo = none) :
    countEv isHealthCall (_playwright_process b e).2.2 ≤ 50 ∧
    (∀ p, (_playwright_process b e).2.1 = some p → ∃ i, i < 50 ∧ e.probe i = true) ∧
    ((_playwright_process b e).2.1 = none ↔ ∀ i, i < 50 → e.probe i = false) := by
  have hcount : countEv isHealthCall
      ([Ev.logInfo "Starting Playwright process", Ev.spawn e.newPid e.newPort] ++
        (healthAttempts e.newPort e.probe e.healthRepr 0 50).1) ≤ 50 := by
    rw [countEv_append]
    have hle := healthAttempts_count e.newPort e.probe e.healthRepr 50 0
    simp only [countEv, List.filter, isHealthCall]
    simpa [countEv] using hle
  cases hs : (healthAttempts e.newPort e.probe e.healthRepr 0 50).2 with
  | none =>
    have hall := (healthAttempts_none_iff e.newPort e.probe e.healthRepr 50 0).mp hs
    refine ⟨?_, ?_, ?_⟩
    · simpa [_playwright_process, h, hs] using hcount
    · intro p hp
      simp [_playwright_process, h, hs] at hp
    · simp only [_playwright_process, h, hs, Option.isSome_none, Bool.false_eq_true,
        if_false]
      simp only [true_iff, eq_self_iff_true]
      intro i hi
      simpa using hall i hi
  | some j =>
    have hj := healthAttempts_some e.newPort e.probe e.healthRepr 50 0 j hs
    refine ⟨?_, ?_, ?_⟩
    · simpa [_playwright_process, h, hs] using hcount
    · intro p _
      exact ⟨j, by omega, hj.1⟩
    · simp only [_playwright_process, h, hs, Option.isSome_some, if_true]
      simp
      exact ⟨j, by omega, hj.1⟩

/-- C3 witness: on a fresh bridge in an environment where only probe 3
succeeds, the loop probes at most 50 times and returns ready; with all
probes failing it raises the timeout. -/
theorem health_loop_bounded_witness :
    freshBridge.memo = none ∧
    countEv isHealthCall (_playwright_process freshBridge envProbe3).2.2 ≤ 50 ∧
    ((_playwright_process freshBridge envProbeFail).2.1 = none ↔
      ∀ i, i < 50 → envProbeFail.probe i = false) := by
  exact ⟨rfl, (health_loop_bounded freshBridge envProbe3 rfl).1,
    (health_loop_bounded freshBridge envProbeFail rfl).2.2⟩

/-- C4: the process handle is unique per bridge and reused: accessing the
cached property with a handle memoised returns that identical handle with
an empty trace (no re-spawn) and leaves the bridge — including its port —
unchanged; a successful first access memoises the handle carrying the
freshly allocated port and records that port in `self.port`; and any
keyword call through `insecure_stub` on a bridge with a memoised handle
leaves the bridge state (handle and port) unchanged. -/
theorem process_handle_unique (b : Bridge) (e : Env) :
    (∀ p, b.memo = some p → _playwright_process b e = (b, some p, [])) ∧
    (b.memo = none → ∀ p, (_playwright_process b e).2.1 = some p →
      p = Popen.mk e.newPid e.newPort ∧ (_playwright_process b e).1.memo = some p ∧
      (_playwright_process b e).1.port = some p.port) ∧
    (∀ p body, b.memo = some p → (insecure_stub_run b e body).1 = b) := by
  refine ⟨fun p hp => _playwright_process_memo b e p hp, ?_, ?_⟩
  · intro h p hp
    cases hs : (healthAttempts e.newPort e.probe e.healthRepr 0 50).2 with
    | none => simp [_playwright_process, h, hs] at hp
    | some j =>
      simp only [_playwright_process, h, hs, Option.isSome_some, if_true] at hp ⊢
      cases hp
      exact ⟨rfl, rfl, rfl⟩
  · intro p body hp
    rcases body with ⟨btr, bout⟩
    have hm := _playwright_process_memo b e p hp
    cases bout <;> simp [insecure_stub_run, hm] <;> split_ifs <;> rfl

/-- C4 witness: the started bridge returns its memoised handle unchanged,
and a fresh bridge memoises the newly allocated pid and port. -/
theorem process_handle_unique_witness :
    startedBridge.memo = some ⟨7, 4321⟩ ∧
    _playwright_process startedBridge envOk = (startedBridge, some ⟨7, 4321⟩, []) ∧
    (_playwright_process freshBridge envProbe3).1.memo = some ⟨9, 5555⟩ ∧
    (_playwright_process freshBridge envProbe3).1.port = some 5555 := by
  have h2 := (process_handle_unique freshBridge envProbe3).2.1 rfl ⟨9, 5555⟩ (by decide)
  exact ⟨rfl, (process_handle_unique startedBridge envOk).1 ⟨7, 4321⟩ rfl,
    h2.2.1, h2.2.2⟩

/-- C5: on a bridge whose process has been started, `insecure_stub` with a
dead process (poll reports termination) raises the connection error with
an empty trace — no channel opened, no network call — and with a live
process it opens a fresh channel to the assigned port before the body
runs (and closes it only on the body's normal return). -/
theorem insecure_stub_liveness (b : Bridge) (e : Env) (p : Popen)
    (body : List Ev × BodyOut) (hmemo : b.memo = some p) (hport : b.port = some p.port) :
    (¬ (b.procAlive = true ∧ e.alive = true) →
      insecure_stub_run b e body =
        (b, [], KwResult.connectionError "Playwright process has been terminated")) ∧
    (b.procAlive = true → e.alive = true →
      (body.2 = BodyOut.ret →
        (insecure_stub_run b e body).2.1 =
          Ev.chanOpen p.port :: body.1 ++ [Ev.chanClose p.port]) ∧
      (∀ r, body.2 = BodyOut.raised r →
        (insecure_stub_run b e body).2.1 = Ev.chanOpen p.port :: body.1)) := by
  have hm := _playwright_process_memo b e p hmemo
  constructor
  · intro hdead
    have hcond : (b.procAlive && e.alive) = false := by
      cases h1 : b.procAlive with
      | false => simp
      | true =>
        cases h2 : e.alive with
        | false => simp
        | true => exact absurd ⟨h1, h2⟩ hdead
    simp [insecure_stub_run, hm, hcond]
  · intro h1 h2
    constructor
    · intro hb
      simp [insecure_stub_run, hm, h1, h2, hb, hport]
    · intro r hb
      simp [insecure_stub_run, hm, h1, h2, hb, hport]

/-- C5 witness: a dead memoised process yields the connection error with an
empty trace; an alive one opens the channel on port 4321 and closes it
after a normally returning body. -/
theorem insecure_stub_liveness_witness :
    deadBridge.memo = some ⟨7, 4321⟩ ∧
    insecure_stub_run deadBridge envOk ([], BodyOut.ret) =
      (deadBridge, [], KwResult.connectionError "Playwright process has been terminated") ∧
    (insecure_stub_run startedBridge envOk ([], BodyOut.ret)).2.1 =
      Ev.chanOpen 4321 :: [] ++ [Ev.chanClose 4321] := by
  refine ⟨rfl, ?_, ?_⟩
  · exact (insecure_stub_liveness deadBridge envOk ⟨7, 4321⟩ ([], BodyOut.ret)
      rfl rfl).1 (by simp [deadBridge])
  · exact ((insecure_stub_liveness startedBridge envOk ⟨7, 4321⟩ ([], BodyOut.ret)
      rfl rfl).2 rfl rfl).1 rfl

/-- C9: a startup-timeout leaves the spawned process running (one spawn,
no kill signal) and nothing memoised; `self.port` keeps the port of the
failed attempt, and the next access runs the initialiser again, spawning a
second process on the freshly allocated port, which replaces `self.port`. -/
theorem failed_start_not_memoised (b : Bridge) (e1 e2 : Env) (h : b.memo = none)
    (hfail : ∀ i, i < 50 → e1.probe i = false) :
    (_playwright_process b e1).2.1 = none ∧
    (_playwright_process b e1).1.memo = none ∧
    (_playwright_process b e1).1.port = some e1.newPort ∧
    countEv isSpawn (_playwright_process b e1).2.2 = 1 ∧
    countEv isSigkill (_playwright_process b e1).2.2 = 0 ∧
    Ev.spawn e2.newPid e2.newPort ∈ (_playwright_process (_playwright_process b e1).1 e2).2.2 ∧
    (_playwright_process (_playwright_process b e1).1 e2).1.port = some e2.newPort := by
  have hs : (healthAttempts e1.newPort e1.probe e1.healthRepr 0 50).2 = none := by
    rw [healthAttempts_none_iff]
    intro j hj
    simpa using hfail j hj
  have hns := healthAttempts_no_spawn e1.newPort e1.probe e1.healthRepr 50 0
  have h1 : (_playwright_process b e1).1 = Bridge.mk none (some e1.newPort) b.procAlive := by
    simp [_playwright_process, h, hs]
  have htr : (_playwright_process b e1).2.2 =
      Ev.logInfo "Starting Playwright process" :: Ev.spawn e1.newPid e1.newPort ::
        (healthAttempts e1.newPort e1.probe e1.healthRepr 0 50).1 := by
    simp [_playwright_process, h, hs]
  refine ⟨?_, ?_, ?_, ?_, ?_, ?_, ?_⟩
  · simp [_playwright_process, h, hs]
  · rw [h1]
  · rw [h1]
  · rw [htr]
    simp [countEv_cons, isSpawn, hns.1]
  · rw [htr]
    simp [countEv_cons, isSigkill, hns.2]
  · rw [h1]
    by_cases hs2 : (healthAttempts e2.newPort e2.probe e2.healthRepr 0 50).2.isSome <;>
      simp [_playwright_process, hs2]
  · rw [h1]
    by_cases hs2 : (healthAttempts e2.newPort e2.probe e2.healthRepr 0 50).2.isSome <;>
      simp [_playwright_process, hs2]

/-- C9 witness: on a fresh bridge, an all-probes-fail startup leaves the
port at 6666 and nothing memoised; the retry allocates and records 7777. -/
theorem failed_start_not_memoised_witness :
    (∀ i, i < 50 → envProbeFail.probe i = false) ∧
    (_playwright_process freshBridge envProbeFail).1.memo = none ∧
    (_playwright_process freshBridge envProbeFail).1.port = some 6666 ∧
    (_playwright_process (_playwright_process freshBridge envProbeFail).1 envProbe0).1.port =
      some 7777 := by
  have h := failed_start_not_memoised freshBridge envProbeFail envProbe0 rfl
    (fun i _ => rfl)
  exact ⟨fun i _ => rfl, h.2.1, h.2.2.1, h.2.2.2.2.2.2⟩

/-- C2: `open_browser` with a browser name whose lower-cased,
whitespace-trimmed form is in the supported set sends exactly that
canonical value in the `browser` field of the outgoing
`openBrowserRequest` (shown on a started, alive bridge, where the request
goes out for both RPC outcomes); with any other name it raises a
`ValueError` listing the supported set and performs no work at all: the
trace is empty (no RPC call, no channel, no process spawn) and the bridge
state — in particular the lazy initialiser's memo — is untouched. -/
theorem open_browser_validation (b : Bridge) (e : Env) (browser : String)
    (url : Option String) :
    (pyStrip (pyLower browser) ∈ _SUPPORTED_BROWSERS →
      ∀ p, b.memo = some p → b.procAlive = true → e.alive = true →
        Ev.rpcCall "OpenBrowser"
            (Request.openBrowser (pyOrEmpty url) (pyStrip (pyLower browser)))
          ∈ (open_browser b e browser url).2.1) ∧
    (pyStrip (pyLower browser) ∉ _SUPPORTED_BROWSERS →
      open_browser b e browser url =
        (b, [], KwResult.valueError (open_browser_error_msg browser))) := by
  constructor
  · intro hin p hp h1 h2
    have hm := _playwright_process_memo b e p hp
    cases hr : e.rpc with
    | ok log body =>
      simp [open_browser, hin, insecure_stub_run, hm, h1, h2, simpleBody, hr]
    | err m =>
      simp [open_browser, hin, insecure_stub_run, hm, h1, h2, simpleBody, hr]
  · intro hout
    simp [open_browser, hout]

/-- C2 witness: " ChRoMe " canonicalises to "chrome" and is sent as such;
"IE" raises the `ValueError` naming the supported set, with the bridge
untouched and an empty trace. -/
theorem open_browser_validation_witness :
    pyStrip (pyLower " ChRoMe ") ∈ _SUPPORTED_BROWSERS ∧
    Ev.rpcCall "OpenBrowser" (Request.openBrowser "" "chrome")
      ∈ (open_browser startedBridge envOk " ChRoMe " none).2.1 ∧
    pyStrip (pyLower "IE") ∉ _SUPPORTED_BROWSERS ∧
    open_browser startedBridge envOk "IE" none =
      (startedBridge, [], KwResult.valueError
        "IE is not supported, it should be one of: chrome, firefox, webkit") := by
  have h1 := (open_browser_validation startedBridge envOk " ChRoMe " none).1
    (by decide) ⟨7, 4321⟩ rfl rfl rfl
  have h2 := (open_browser_validation startedBridge envOk "IE" none).2 (by decide)
  exact ⟨by decide, h1, by decide, h2⟩

/-- C10: with the Python default arguments (`browser="Chrome"`,
`url=None`), the browser name canonicalises to "chrome", which passes
validation, and the outgoing request carries the empty string as its url
field; `url or ""` also maps the falsy explicit empty string to "". -/
theorem open_browser_defaults (b : Bridge) (e : Env) (p : Popen) (log body : String)
    (hp : b.memo = some p) (h1 : b.procAlive = true) (h2 : e.alive = true)
    (hr : e.rpc = RpcOutcome.ok log body) :
    pyStrip (pyLower "Chrome") = "chrome" ∧
    "chrome" ∈ _SUPPORTED_BROWSERS ∧
    pyOrEmpty none = "" ∧ pyOrEmpty (some "") = "" ∧
    Ev.rpcCall "OpenBrowser" (Request.openBrowser "" "chrome")
      ∈ (open_browser b e "Chrome" none).2.1 ∧
    (open_browser b e "Chrome" none).2.2 = KwResult.ok := by
  have hm := _playwright_process_memo b e p hp
  have hcanon : pyStrip (pyLower "Chrome") = "chrome" := by decide
  have hmem : ("chrome" : String) ∈ _SUPPORTED_BROWSERS := by decide
  refine ⟨hcanon, hmem, rfl, rfl, ?_, ?_⟩
  · simp [open_browser, hcanon, hmem, insecure_stub_run, hm, h1, h2, simpleBody, hr,
      pyOrEmpty]
  · simp [open_browser, hcanon, hmem, insecure_stub_run, hm, h1, h2, simpleBody, hr]

/-- C10 witness: the started bridge with a successful RPC sends
`openBrowserRequest(url="", browser="chrome")` and returns normally. -/
theorem open_browser_defaults_witness :
    startedBridge.memo = some ⟨7, 4321⟩ ∧
    envOk.rpc = RpcOutcome.ok "logline" "https://example.com" ∧
    Ev.rpcCall "OpenBrowser" (Request.openBrowser "" "chrome")
      ∈ (open_browser startedBridge envOk "Chrome" none).2.1 ∧
    (open_browser startedBridge envOk "Chrome" none).2.2 = KwResult.ok := by
  have h := open_browser_defaults startedBridge envOk ⟨7, 4321⟩ "logline"
    "https://example.com" rfl rfl rfl rfl
  exact ⟨rfl, rfl, h.2.2.2.2.1, h.2.2.2.2.2⟩

/-- C6: `location_should_be(url)` returns normally exactly when the body
returned by the `GetUrl` query equals the expected url; on a mismatch it
raises an assertion failure whose message contains both the expected and
the observed url verbatim. -/
theorem location_should_be_spec (b : Bridge) (e : Env) (p : Popen)
    (url log body : String) (hp : b.memo = some p) (h1 : b.procAlive = true)
    (h2 : e.alive = true) (hr : e.rpc = RpcOutcome.ok log body) :
    ((location_should_be b e url).2.2 = KwResult.ok ↔ body = url) ∧
    (body ≠ url →
      (location_should_be b e url).2.2 = KwResult.assertionError
        ("URL should be `" ++ url ++ "`  but was `" ++ body ++ "`") ∧
      (∃ s t, "URL should be `" ++ url ++ "`  but was `" ++ body ++ "`" = s ++ url ++ t) ∧
      (∃ s t, "URL should be `" ++ url ++ "`  but was `" ++ body ++ "`" = s ++ body ++ t)) := by
  have hm := _playwright_process_memo b e p hp
  constructor
  · by_cases hb : url = body
    · simp [location_should_be, insecure_stub_run, hm, h1, h2, location_should_be_body,
        hr, hb]
    · simp [location_should_be, insecure_stub_run, hm, h1, h2, location_should_be_body,
        hr, hb]
      exact fun hc => absurd hc.symm hb
  · intro hb
    have hb2 : ¬ url = body := fun hc => hb hc.symm
    refine ⟨?_,
      ⟨"URL should be `", "`  but was `" ++ body ++ "`", by simp [String.append_assoc]⟩,
      ⟨"URL should be `" ++ url ++ "`  but was `", "`", by simp [String.append_assoc]⟩⟩
    simp [location_should_be, insecure_stub_run, hm, h1, h2, location_should_be_body,
      hr, hb2]

/-- C6 witness: with the engine reporting "https://example.com", asserting
that url succeeds, and asserting "https://other.com" fails with a message
carrying both urls. -/
theorem location_should_be_spec_witness :
    (location_should_be startedBridge envOk "https://example.com").2.2 = KwResult.ok ∧
    (location_should_be startedBridge envOk "https://other.com").2.2 =
      KwResult.assertionError
        "URL should be `https://other.com`  but was `https://example.com`" := by
  have hok := (location_should_be_spec startedBridge envOk ⟨7, 4321⟩
    "https://example.com" "logline" "https://example.com" rfl rfl rfl rfl).1.mpr rfl
  have hfail := ((location_should_be_spec startedBridge envOk ⟨7, 4321⟩
    "https://other.com" "logline" "https://example.com" rfl rfl rfl rfl).2
    (by decide)).1
  exact ⟨hok, hfail⟩

/-- C7: `page_should_contain(text)` sends a `selectorRequest` whose
selector is the string "text=" concatenated with the expected text; it
returns normally exactly when the response body equals the expected text,
and otherwise raises a failure whose message names the missing text. -/
theorem page_should_contain_spec (b : Bridge) (e : Env) (p : Popen)
    (text log body : String) (hp : b.memo = some p) (h1 : b.procAlive = true)
    (h2 : e.alive = true) (hr : e.rpc = RpcOutcome.ok log body) :
    Ev.rpcCall "GetTextContent" (Request.selector ("text=" ++ text))
      ∈ (page_should_contain b e text).2.1 ∧
    ((page_should_contain b e text).2.2 = KwResult.ok ↔ body = text) ∧
    (body ≠ text →
      (page_should_contain b e text).2.2 = KwResult.assertionError
        ("No element with text `" ++ text ++ "` on page") ∧
      ∃ s t, "No element with text `" ++ text ++ "` on page" = s ++ text ++ t) := by
  have hm := _playwright_process_memo b e p hp
  refine ⟨?_, ?_, ?_⟩
  · by_cases hb : body = text <;>
      simp [page_should_contain, insecure_stub_run, hm, h1, h2, page_should_contain_body,
        hr, hb]
  · by_cases hb : body = text
    · simp [page_should_contain, insecure_stub_run, hm, h1, h2, page_should_contain_body,
        hr, hb]
    · simp [page_should_contain, insecure_stub_run, hm, h1, h2, page_should_contain_body,
        hr, hb]
  · intro hb
    refine ⟨?_, ⟨"No element with text `", "` on page", by simp [String.append_assoc]⟩⟩
    simp [page_should_contain, insecure_stub_run, hm, h1, h2, page_should_contain_body,
      hr, hb]

/-- C7 witness: `page_should_contain "Login"` sends selector "text=Login";
with the engine answering "Login" it succeeds, with "https://example.com"
(the envOk body) it fails naming "Login". -/
theorem page_should_contain_spec_witness :
    Ev.rpcCall "GetTextContent" (Request.selector "text=Login")
      ∈ (page_should_contain startedBridge envOk "Login").2.1 ∧
    (page_should_contain startedBridge envOk "Login").2.2 =
      KwResult.assertionError "No element with text `Login` on page" := by
  have h := page_should_contain_spec startedBridge envOk ⟨7, 4321⟩ "Login" "logline"
    "https://example.com" rfl rfl rfl rfl
  exact ⟨h.1, (h.2.2 (by decide)).1⟩

/-- C1: channel lifecycle of `insecure_stub` at concrete keyword calls.
On a normal return the channel is closed exactly once; but the claim that
it is also closed on every raising path fails: the contextmanager has no
try/finally, so when the with-body raises — an assertion failure in
`location_should_be`, or a transport failure in `close_browser` — the
channel is opened once and closed zero times (a leak). -/
theorem channel_close_at_keyword_calls :
    (countEv isChanOpen (location_should_be startedBridge envOk "https://example.com").2.1 = 1 ∧
     countEv isChanClose (location_should_be startedBridge envOk "https://example.com").2.1 = 1 ∧
     (location_should_be startedBridge envOk "https://example.com").2.2 = KwResult.ok) ∧
    (countEv isChanOpen (location_should_be startedBridge envOk "https://other.com").2.1 = 1 ∧
     countEv isChanClose (location_should_be startedBridge envOk "https://other.com").2.1 = 0 ∧
     (location_should_be startedBridge envOk "https://other.com").2.2 =
       KwResult.assertionError
         "URL should be `https://other.com`  but was `https://example.com`") ∧
    (countEv isChanOpen (close_browser startedBridge envRpcErr).2.1 = 1 ∧
     countEv isChanClose (close_browser startedBridge envRpcErr).2.1 = 0 ∧
     (close_browser startedBridge envRpcErr).2.2 = KwResult.rpcError "UNAVAILABLE") := by
  decide

/-- C8 counterexample: `_close` on a bridge with no engine process handle
spawns one — the `cached_property` access in `self._playwright_process.kill()`
runs the full initialiser — contradicting the claim that calling stop
never spawns a process. -/
theorem close_spawns_counterexample :
    countEv isSpawn (_close freshBridge envProbe0).2.1 = 1 ∧
    (_close freshBridge envProbe0).2.2 = KwResult.ok := by
  decide

/-- C8 amended: when a process handle is memoised, `_close` logs before and
after, force-terminates that process (kill on its pid; SIGKILL delivered
only if still alive), spawns nothing, returns normally and leaves the
handle memoised but marked terminated; a second `_close` then finds the
process already terminated: it spawns nothing and delivers no further
SIGKILL (OS-level no-op). When no handle is memoised, `_close` instead
triggers the lazy initialiser and spawns a process before killing it. -/
theorem close_terminates_and_idempotent (b : Bridge) (e1 e2 : Env) (p : Popen)
    (h : b.memo = some p) :
    (_close b e1).2.1.head? = some (Ev.logDebug "Closing Playwright process") ∧
    (_close b e1).2.1.getLast? = some (Ev.logDebug "Playwright process killed") ∧
    Ev.killCall p.pid ∈ (_close b e1).2.1 ∧
    countEv isSpawn (_close b e1).2.1 = 0 ∧
    (_close b e1).1 = Bridge.mk (some p) b.port false ∧
    (_close b e1).2.2 = KwResult.ok ∧
    countEv isSpawn (_close (_close b e1).1 e2).2.1 = 0 ∧
    countEv isSigkill (_close (_close b e1).1 e2).2.1 = 0 := by
  have hm := _playwright_process_memo b e1 p h
  have hm2 := _playwright_process_memo (Bridge.mk (some p) b.port false) e2 p rfl
  have h2tr : (_close (Bridge.mk (some p) b.port false) e2).2.1 =
      [Ev.logDebug "Closing Playwright process", Ev.killCall p.pid,
       Ev.logDebug "Playwright process killed"] := by
    simp [_close, hm2]
  have hstate : (_close b e1).1 = Bridge.mk (some p) b.port false := by
    cases hc : (b.procAlive && e1.alive) <;> simp [_close, hm, hc, h]
  have hok : (_close b e1).2.2 = KwResult.ok := by
    cases hc : (b.procAlive && e1.alive) <;> simp [_close, hm, hc]
  cases hc : (b.procAlive && e1.alive) with
  | false =>
    have htr : (_close b e1).2.1 =
        [Ev.logDebug "Closing Playwright process", Ev.killCall p.pid,
         Ev.logDebug "Playwright process killed"] := by
      simp [_close, hm, hc]
    exact ⟨by rw [htr]; rfl, by rw [htr]; rfl, by rw [htr]; simp, by rw [htr]; rfl, hstate,
      hok, by rw [hstate, h2tr]; rfl, by rw [hstate, h2tr]; rfl⟩
  | true =>
    have htr : (_close b e1).2.1 =
        [Ev.logDebug "Closing Playwright process", Ev.killCall p.pid, Ev.sigkill p.pid,
         Ev.logDebug "Playwright process killed"] := by
      simp [_close, hm, hc]
    exact ⟨by rw [htr]; rfl, by rw [htr]; rfl, by rw [htr]; simp, by rw [htr]; rfl, hstate,
      hok, by rw [hstate, h2tr]; rfl, by rw [hstate, h2tr]; rfl⟩

/-- C8 amended witness: closing the started bridge kills pid 7 without
spawning; closing again delivers no further SIGKILL and spawns nothing. -/
theorem close_terminates_and_idempotent_witness :
    startedBridge.memo = some ⟨7, 4321⟩ ∧
    Ev.killCall 7 ∈ (_close startedBridge envOk).2.1 ∧
    countEv isSpawn (_close startedBridge envOk).2.1 = 0 ∧
    countEv isSpawn (_close (_close startedBridge envOk).1 envOk).2.1 = 0 ∧
    countEv isSigkill (_close (_close startedBridge envOk).1 envOk).2.1 = 0 := by
  have hcl := close_terminates_and_idempotent startedBridge envOk envOk ⟨7, 4321⟩ rfl
  exact ⟨rfl, hcl.2.2.1, hcl.2.2.2.1, hcl.2.2.2.2.2.2.1, hcl.2.2.2.2.2.2.2⟩

end Playwright
